import Mathlib

/-!
Shallow embedding of the FastAPICosmosDB service: the status store
(`app/services/status_tracker.py`), request validation
(`app/models/cosmos_models.py`), the Azure manager
(`app/services/azure_cosmos_manager.py`), the notification helpers
(`app/routers/cosmos_router.py`, `app/services/email_templates.py`,
`app/services/gmail_sender.py`, `app/services/email_service.py`) and the
router flows (`app/routers/cosmos_router.py`).

Python `datetime.now()` is modelled by a natural-number clock threaded
through the flows; exceptions are modelled with `Except`; the external
Azure provider and the SMTP transport are modelled as oracle parameters
describing the outcome of each remote interaction.
-/

namespace CosmosSpec

/-- Enum `CosmosAPIType` from `app/models/custom_types.py`. -/
inductive CosmosAPIType where
  | sql
  | mongo
deriving DecidableEq, Repr

/-- The `.value` of the Python `str`-enum member. -/
def CosmosAPIType.value : CosmosAPIType → String
  | .sql => "sql"
  | .mongo => "mongo"

/-- Enum `CosmosAccountStatus` from `app/models/custom_types.py`. -/
inductive CosmosAccountStatus where
  | queued
  | in_progress
  | completed
  | error
deriving DecidableEq, Repr

/-- Model `CosmosAccountStatusResponse` from `app/models/cosmos_models.py`:
the record type stored by `StatusTracker` and returned by the API.
Timestamps are naturals (ticks of the modelled clock). -/
structure CosmosAccountStatusResponse where
  account_name : String
  status : CosmosAccountStatus
  created_at : Nat
  updated_at : Nat
  message : Option String
deriving DecidableEq, Repr

/-- The `StatusTracker._statues` dictionary, embedded as an association
list in which the most recent binding for a key shadows older ones
(Python dict assignment overwrites; lookups below read the newest
binding first, so the two are observationally equal). -/
abbrev StatusStore := List (String × CosmosAccountStatusResponse)

/-- Embeds `StatusTracker.update_status` from `app/services/status_tracker.py`:
`now = datetime.now()` is the `now` argument; the stored record sets
BOTH `created_at` and `updated_at` to that same `now`, and overwrites
any previous record for `account_name`. -/
def update_status (store : StatusStore) (now : Nat) (account_name : String)
    (status : CosmosAccountStatus) (message : Option String) : StatusStore :=
  (account_name,
    { account_name := account_name
      status := status
      created_at := now
      updated_at := now
      message := message }) :: store

/-- Embeds `StatusTracker.get_status` from `app/services/status_tracker.py`:
`cls._statues.get(account_name, None)`. -/
def get_status (store : StatusStore) (account_name : String) :
    Option CosmosAccountStatusResponse :=
  (store.find? fun p => p.1 == account_name).map Prod.snd

/-- Embeds `AzureCosmosManager._create_status_response` from
`app/services/azure_cosmos_manager.py`: `now = datetime.now()` is taken
once and used for both timestamp fields. -/
def create_status_response (account_name : String) (status : CosmosAccountStatus)
    (resp_message : Option String) (now : Nat) : CosmosAccountStatusResponse :=
  { account_name := account_name
    status := status
    created_at := now
    updated_at := now
    message := resp_message }

/-! ### Request validation (`CreateCosmosAccountRequest`)

`app/models/cosmos_models.py` constrains `account_name` with
`min_length=3`, `max_length=44` and the anchored regular expression
`[a-z]+` then `[a-z0-9-]` repeated 1 to 42 times then `[a-z0-9]`,
and `location` with `min_length=5`.  `api_type` is an enum with default
`sql`; requests in scope carry a valid enum value. -/

/-- Character class `[a-z]` of the account-name pattern. -/
def isLowerAlpha (c : Char) : Bool :=
  'a' ≤ c && c ≤ 'z'

/-- Character class `[0-9]` of the account-name pattern. -/
def isDigitChar (c : Char) : Bool :=
  '0' ≤ c && c ≤ '9'

/-- Character class `[a-z0-9-]` of the account-name pattern. -/
def isNameChar (c : Char) : Bool :=
  isLowerAlpha c || isDigitChar c || c == '-'

/-- Character class `[a-z0-9]` of the account-name pattern. -/
def isNameTailChar (c : Char) : Bool :=
  isLowerAlpha c || isDigitChar c

/-- The anchored pattern of the `account_name` field: some split point
`i` gives a nonempty all-`[a-z]` prefix, followed by a middle segment of
1 to 42 characters from `[a-z0-9-]`, followed by one final `[a-z0-9]`
character (so the remainder after the prefix has 2 to 43 characters). -/
def matchesAccountPattern (cs : List Char) : Bool :=
  (List.range (cs.length + 1)).any fun i =>
    decide (1 ≤ i) && (cs.take i).all isLowerAlpha &&
    decide (2 ≤ (cs.drop i).length) && decide ((cs.drop i).length ≤ 43) &&
    ((cs.drop i).dropLast).all isNameChar &&
    (match (cs.drop i).getLast? with
     | some c => isNameTailChar c
     | none => false)

/-- The full pydantic validation of the `account_name` field:
`min_length=3 && max_length=44 && pattern`. -/
def validAccountName (s : String) : Bool :=
  decide (3 ≤ s.toList.length) && decide (s.toList.length ≤ 44) &&
    matchesAccountPattern s.toList

/-- The pydantic validation of the `location` field: `min_length=5`. -/
def validLocation (s : String) : Bool :=
  decide (5 ≤ s.toList.length)

/-- Whether a request body passes `CreateCosmosAccountRequest` model
validation (performed by pydantic before the route handler runs). -/
def validCreateRequest (account_name location : String) : Bool :=
  validAccountName account_name && validLocation location

/-- The identifier rule in the SPEC's words (for comparison with the
code's `validAccountName`): 3 to 44 characters of lowercase letters,
digits and hyphens, starting with a letter and not ending with a
hyphen. -/
def specValidAccountName (s : String) : Prop :=
  3 ≤ s.toList.length ∧ s.toList.length ≤ 44 ∧
  (∀ c ∈ s.toList, isNameChar c = true) ∧
  (∀ c, s.toList.head? = some c → isLowerAlpha c = true) ∧
  (∀ c, s.toList.getLast? = some c → c ≠ '-')

/-! ### Provider model (`AzureCosmosManager`) -/

/-- Kinds of `AzureError` the provider SDK can raise: a 404
`ResourceNotFoundError` for a missing account, or a genuine
communication failure.  Both are subclasses of `AzureError`. -/
inductive AzureErrorKind where
  | resourceNotFound
  | communicationFailure
deriving DecidableEq, Repr

/-- Oracle describing the behaviour of one
`client.database_accounts.get` call. -/
inductive ProviderGetBehavior where
  | returnsAccount
  | raisesNotFound
  | raisesCommunicationFailure
deriving DecidableEq, Repr

/-- The raw SDK call `client.database_accounts.get`: returns the account
object, or raises an `AzureError` (`ResourceNotFoundError` when the
account is absent, some other `AzureError` when communication fails). -/
def clientDatabaseAccountsGet : ProviderGetBehavior → Except AzureErrorKind Unit
  | .returnsAccount => .ok ()
  | .raisesNotFound => .error .resourceNotFound
  | .raisesCommunicationFailure => .error .communicationFailure

/-- Embeds `AzureCosmosManager.get_account_async`: wraps the SDK call in
`try/except AzureError`, returning `None` whenever ANY `AzureError` is
raised (the error is logged, never re-raised). -/
def get_account_async (behavior : ProviderGetBehavior) : Option Unit :=
  match clientDatabaseAccountsGet behavior with
  | .ok account => some account
  | .error _ => none

/-- Embeds `AzureCosmosManager.account_exists`: `account is not None`. -/
def account_exists (behavior : ProviderGetBehavior) : Bool :=
  (get_account_async behavior).isSome

/-- Outcome of a provider long-running operation (the executor thread
running `begin_create_or_update(...).result()` or
`begin_delete(...).result()`): the future completes normally, or raises
with an error message. -/
inductive OpOutcome where
  | success
  | failure (msg : String)
deriving DecidableEq, Repr

/-- Enum `DatabaseAccountKind` of the Azure SDK. -/
inductive DatabaseAccountKind where
  | global_document_db
  | mongo_db
deriving DecidableEq, Repr

/-- Model `ApiProperties` of the Azure SDK. -/
structure ApiProperties where
  server_version : String
deriving DecidableEq, Repr

/-- Embeds `AzureCosmosManager._map_api_type`. -/
def map_api_type : CosmosAPIType → DatabaseAccountKind
  | .sql => .global_document_db
  | .mongo => .mongo_db

/-- Embeds `AzureCosmosManager._get_api_properties`. -/
def get_api_properties : CosmosAPIType → Option ApiProperties
  | .mongo => some { server_version := "3.2" }
  | .sql => none

/-! ### Email transport (`gmail_sender.py`, `email_service.py`) -/

/-- Oracle describing one interaction with the SMTP transport:
delivery succeeds, `send_message` raises an `SMTPException`, or the
`connect()` performed by the `GmailSender` context manager raises
(connection refused, auth failure...). -/
inductive TransportOutcome where
  | delivered
  | smtpError (msg : String)
  | connectFailure (msg : String)
deriving DecidableEq, Repr

/-- The dictionary returned by `GmailSender.send`. -/
structure SendOperationResult where
  success : Bool
  error : Option String
deriving DecidableEq, Repr

/-- One `with GmailSender(settings) as sender: sender.send(...)` block:
a `connect` failure raises out of the block; an `SMTPException` inside
`send` is caught there and returned as a `success=False` dictionary; a
delivered message returns a `success=True` dictionary. -/
def GmailSender_send : TransportOutcome → Except String SendOperationResult
  | .delivered => .ok { success := true, error := none }
  | .smtpError m => .ok { success := false, error := some m }
  | .connectFailure m => .error m

/-- Model `Settings` from `app/core/config/settings.py`, restricted to the
fields the notification and provisioning code reads. -/
structure Settings where
  AZURE_SUBSCRIPTION_ID : String
  AZURE_RESOURCE_GROUP : String
  GMAIL_ADDRESS : String
  GMAIL_PASSWORD : String
deriving DecidableEq, Repr

/-! ### Notifications

Each notification function composes a fixed subject and body and
attempts the transport inside `try/except Exception`, so it always
returns normally: the result is the composed notification (the dispatch
attempt) together with the log lines produced when the transport
failed. -/

/-- Kind tags for counting dispatched notifications. -/
inductive NotificationKind where
  | createSuccess
  | createFailure
  | deleteSuccess
  | deleteFailure
deriving DecidableEq, Repr

/-- One outbound email as composed by a notification function. -/
structure Notification where
  kind : NotificationKind
  recipient : String
  subject : String
  body : String
deriving DecidableEq, Repr

/-- Embeds `send_failure_notification` from `app/routers/cosmos_router.py`. -/
def send_failure_notification (account_name error_message : String)
    (settings : Settings) (t : TransportOutcome) : Notification × List String :=
  let n : Notification :=
    { kind := .createFailure
      recipient := settings.GMAIL_ADDRESS
      subject := "Provisioning failed for " ++ account_name
      body := "CosmosDB account provisioning failed:\n                Account Name: "
        ++ account_name ++ "\n                Error: " ++ error_message
        ++ "\n                Required Action:\n                1. Check Azure portal for resource status.\n                2. Check detail.log file for errors\n                3. Review account name availability\n                4. Ensure location selected is available for your account at this time.\n                Provisioning failed for "
        ++ account_name ++ " with error: " ++ error_message }
  match GmailSender_send t with
  | .ok _ => (n, [])
  | .error e => (n, ["Email notification failed: " ++ e])

/-- Embeds `send_success_notification` from `app/routers/cosmos_router.py`;
`nowText` renders the `datetime.now()` strftime stamp in the body. -/
def send_success_notification (account_name : String) (api_type : CosmosAPIType)
    (location nowText : String) (settings : Settings) (t : TransportOutcome) :
    Notification × List String :=
  let n : Notification :=
    { kind := .createSuccess
      recipient := settings.GMAIL_ADDRESS
      subject := "✅ Cosmos DB Account Ready: " ++ account_name
      body := "Your Azure Cosmos DB account has been successfully provisioned!\n\nAccount Details:\n• Name: "
        ++ account_name ++ "\n• API Type: " ++ api_type.value
        ++ "\n• Location: " ++ location ++ "\n• Provisioning Time: " ++ nowText
        ++ "\n\nNext Steps:\n1. Create databases and containers\n2. Configure access policies\n3. Connect using connection strings\n\nAzure Portal Link: https://portal.azure.com/#resource/subscriptions/"
        ++ settings.AZURE_SUBSCRIPTION_ID ++ "/resourceGroups/"
        ++ settings.AZURE_RESOURCE_GROUP
        ++ "/providers/Microsoft.DocumentDB/databaseAccounts/" ++ account_name ++ "\n" }
  match GmailSender_send t with
  | .ok _ => (n, [])
  | .error e => (n, ["Failed to send success notification: " ++ e])

/-- Embeds `send_deletion_success_email` from `app/routers/cosmos_router.py`. -/
def send_deletion_success_email (account_name : String) (settings : Settings)
    (t : TransportOutcome) : Notification × List String :=
  let n : Notification :=
    { kind := .deleteSuccess
      recipient := settings.GMAIL_ADDRESS
      subject := "✅ Cosmos DB Account Deleted: " ++ account_name
      body := "Your Azure Cosmos DB account " ++ account_name
        ++ " has been successfully deleted." }
  match GmailSender_send t with
  | .ok _ => (n, [])
  | .error e => (n, ["EMail error: " ++ e])

/-- Embeds `send_deletion_failure_email` from `app/routers/cosmos_router.py`. -/
def send_deletion_failure_email (account_name error_message : String)
    (settings : Settings) (t : TransportOutcome) : Notification × List String :=
  let n : Notification :=
    { kind := .deleteFailure
      recipient := settings.GMAIL_ADDRESS
      subject := "❌ Cosmos DB Account Deletion Failed: " ++ account_name
      body := "Failed to delete Cosmos DB account " ++ account_name
        ++ ". Error: " ++ error_message }
  match GmailSender_send t with
  | .ok _ => (n, [])
  | .error e => (n, ["EMail error: " ++ e])

/-- Embeds `email_templates.send_success_notification` composed with
`email_service.send_email` (which performs the `try/except` and logs
with the `Email notification failed:` prefix). -/
def email_templates.send_success_notification (account_name : String)
    (api_type : CosmosAPIType) (location nowText : String) (settings : Settings)
    (t : TransportOutcome) : Notification × List String :=
  let n : Notification :=
    { kind := .createSuccess
      recipient := settings.GMAIL_ADDRESS
      subject := "✅ Cosmos DB Account Ready: " ++ account_name
      body := "Your Azure Cosmos DB account has been successfully provisioned!\n\n            Account Details:\n            • Name: "
        ++ account_name ++ "\n            • API Type: " ++ api_type.value
        ++ "\n            • Location: " ++ location
        ++ "\n            • Provisioning Time: " ++ nowText
        ++ "\n\n            Next Steps:\n            1. Create databases and containers\n            2. Configure access policies\n            3. Connect using connection strings\n\n            Azure Portal Link: https://portal.azure.com/#resource/subscriptions/"
        ++ settings.AZURE_SUBSCRIPTION_ID ++ "/resourceGroups/"
        ++ settings.AZURE_RESOURCE_GROUP
        ++ "/providers/Microsoft.DocumentDB/databaseAccounts/" ++ account_name
        ++ "\n            " }
  match GmailSender_send t with
  | .ok _ => (n, [])
  | .error e => (n, ["Email notification failed: " ++ e])

/-- Embeds `email_templates.send_failure_notification` composed with
`email_service.send_email`. -/
def email_templates.send_failure_notification (account_name error_message : String)
    (settings : Settings) (t : TransportOutcome) : Notification × List String :=
  let n : Notification :=
    { kind := .createFailure
      recipient := settings.GMAIL_ADDRESS
      subject := "Provisioning failed for " ++ account_name
      body := "CosmosDB account provisioning failed:\n                Account Name: "
        ++ account_name ++ "\n                Error: " ++ error_message
        ++ "\n                Required Action:\n                1. Check Azure portal for resource status.\n                2. Check detail.log file for errors\n                3. Review account name availability\n                4. Ensure location selected is available for your account at this time.\n                Provisioning failed for "
        ++ account_name ++ " with error: " ++ error_message }
  match GmailSender_send t with
  | .ok _ => (n, [])
  | .error e => (n, ["Email notification failed: " ++ e])

/-- Embeds `email_templates.send_deletion_success_email` composed with
`email_service.send_email`. -/
def email_templates.send_deletion_success_email (account_name : String)
    (settings : Settings) (t : TransportOutcome) : Notification × List String :=
  let n : Notification :=
    { kind := .deleteSuccess
      recipient := settings.GMAIL_ADDRESS
      subject := "✅ Cosmos DB Account Deleted: " ++ account_name
      body := "Your Azure Cosmos DB account " ++ account_name
        ++ " has been successfully deleted." }
  match GmailSender_send t with
  | .ok _ => (n, [])
  | .error e => (n, ["Email notification failed: " ++ e])

/-- Embeds `email_templates.send_deletion_failure_email` composed with
`email_service.send_email`. -/
def email_templates.send_deletion_failure_email (account_name error_message : String)
    (settings : Settings) (t : TransportOutcome) : Notification × List String :=
  let n : Notification :=
    { kind := .deleteFailure
      recipient := settings.GMAIL_ADDRESS
      subject := "❌ Cosmos DB Account Deletion Failed: " ++ account_name
      body := "Failed to delete Cosmos DB account " ++ account_name
        ++ ". Error: " ++ error_message }
  match GmailSender_send t with
  | .ok _ => (n, [])
  | .error e => (n, ["Email notification failed: " ++ e])

/-! ### Orchestrated flows

The flows are modelled as functions from a `FlowState` (status store,
clock, and the trace of observable events so far) to the next
`FlowState`, following the statement order of the Python source.  The
`providerOpCompleted` event marks the moment the provider finishes the
long-running operation: everything recorded before it happens while the
operation is still pending, everything after it is the work of the
`add_done_callback` continuation.  The callback is delivered to the
event loop with `call_soon_threadsafe`, so it cannot run before the
currently executing task body (which never awaits after submitting)
reaches its end; the flow functions therefore place the callback events
after the task body's own events. -/

/-- One observable event of a flow. -/
inductive Event where
  | statusUpdate (account_name : String) (status : CosmosAccountStatus)
      (message : Option String)
  | notification (n : Notification)
  | providerOpCompleted (account_name : String) (outcome : OpOutcome)
deriving DecidableEq, Repr

/-- Status store, clock and event trace threaded through a flow. -/
structure FlowState where
  store : StatusStore
  clock : Nat
  events : List Event
deriving DecidableEq, Repr

/-- A `StatusTracker.update_status` call inside a flow: stamps the
current clock, advances it, and records the event. -/
def recordUpdate (fs : FlowState) (account_name : String)
    (status : CosmosAccountStatus) (message : Option String) : FlowState :=
  { store := update_status fs.store fs.clock account_name status message
    clock := fs.clock + 1
    events := fs.events ++ [Event.statusUpdate account_name status message] }

/-- A notification dispatch attempt inside a flow.  The notification
functions never raise (their `try/except Exception` swallows transport
failures) and never touch the status store, so the store and the clock
are unchanged. -/
def recordNotification (fs : FlowState) (n : Notification) : FlowState :=
  { fs with events := fs.events ++ [Event.notification n] }

/-- The instant the provider's long-running operation finishes. -/
def recordOpCompleted (fs : FlowState) (account_name : String)
    (outcome : OpOutcome) : FlowState :=
  { fs with events := fs.events ++ [Event.providerOpCompleted account_name outcome] }

/-- The `callback` closure attached by
`AzureCosmosManager.create_account_async` to the executor future: on a
successful future it writes COMPLETED and sends the
`email_templates` success notification; on a raising future it writes
ERROR with the exception text and sends the failure notification. -/
def create_account_callback (account_name : String) (api_type : CosmosAPIType)
    (location : String) (settings : Settings) (t : TransportOutcome)
    (outcome : OpOutcome) (fs : FlowState) : FlowState :=
  match outcome with
  | .success =>
    let fs := recordUpdate fs account_name .completed
      (some "Provisioning completed successfully")
    recordNotification fs
      (email_templates.send_success_notification account_name api_type location
        (toString fs.clock) settings t).1
  | .failure m =>
    let fs := recordUpdate fs account_name .error (some m)
    recordNotification fs
      (email_templates.send_failure_notification account_name m settings t).1

/-- Embeds `AzureCosmosManager.create_account_async`: maps the API type, builds
the creation parameters, submits `sync_create_and_wait` to the executor,
attaches the completion callback and returns at ACCEPT time - before the
long-running operation finishes.  Its `except AzureError` branch is dead
code: the submit itself raises no `AzureError` (the SDK call runs inside
the executor thread and its failure is delivered to the callback), so
the function has no synchronous observable effect. -/
def create_account_async (account_name location : String)
    (api_type : CosmosAPIType) (fs : FlowState) : FlowState :=
  let _kind := map_api_type api_type
  let _props := get_api_properties api_type
  fs

/-- Embeds `execute_provisioning` from `app/routers/cosmos_router.py` (the
background task), followed by the completion callback attached by
`create_account_async`.  The task body writes IN_PROGRESS, awaits
`create_account_async` (which returns at accept time), then writes
COMPLETED and sends its own success notification - all while the
provider operation may still be pending; the callback then runs when the
operation finishes.  The task's `except Exception` branch is dead code:
`update_status` and the notification functions raise nothing. -/
def execute_provisioning (account_name location : String)
    (api_type : CosmosAPIType) (settings : Settings) (t : TransportOutcome)
    (outcome : OpOutcome) (fs : FlowState) : FlowState :=
  let fs := recordUpdate fs account_name .in_progress
    (some "Resource provisioning started")
  let fs := create_account_async account_name location api_type fs
  let fs := recordUpdate fs account_name .completed
    (some "Provisioning completed successfully")
  let fs := recordNotification fs
    (send_success_notification account_name api_type location
      (toString fs.clock) settings t).1
  let fs := recordOpCompleted fs account_name outcome
  create_account_callback account_name api_type location settings t outcome fs

/-- Detail payload of a FastAPI `HTTPException`. -/
structure HttpErrorBody where
  statusCode : Nat
  error_code : String
  message : String
deriving DecidableEq, Repr

/-- Response of `POST /cosmos/accounts`.  `validationRejected` is the
framework's rejection of a body failing `CreateCosmosAccountRequest`
model validation: FastAPI answers 422 Unprocessable Entity with its
default validation detail (no `error_code` field) and the handler never
runs.  `httpError` carries an `HTTPException` raised by the handler; the
handler's `except ValueError` (400 VALIDATION_ERROR) and
`except AzureError` (500 AZURE_ERROR) branches are dead code - nothing
in the `try` body raises either - so the model never produces it. -/
inductive PostResponse where
  | accepted (record : Option CosmosAccountStatusResponse)
  | validationRejected
  | httpError (e : HttpErrorBody)
deriving DecidableEq, Repr

/-- HTTP status code of a `POST /cosmos/accounts` response. -/
def PostResponse.statusCode : PostResponse → Nat
  | .accepted _ => 202
  | .validationRejected => 422
  | .httpError e => e.statusCode

/-- Embeds `create_cosmos_account` from `app/routers/cosmos_router.py`,
together with the pydantic validation boundary and the background task
it schedules.  A validated request publishes QUEUED, schedules
`execute_provisioning` and answers 202 with the current record; the
scheduled task runs after the response is produced. -/
def create_cosmos_account (account_name location : String)
    (api_type : CosmosAPIType) (settings : Settings) (t : TransportOutcome)
    (outcome : OpOutcome) (fs : FlowState) : PostResponse × FlowState :=
  if validCreateRequest account_name location then
    let fs1 := recordUpdate fs account_name .queued none
    let resp := PostResponse.accepted (get_status fs1.store account_name)
    (resp, execute_provisioning account_name location api_type settings t outcome fs1)
  else
    (PostResponse.validationRejected, fs)

/-- Embeds `get_provisioning_status` from `app/routers/cosmos_router.py`. -/
def get_provisioning_status (fs : FlowState) (account_name : String) :
    Except HttpErrorBody CosmosAccountStatusResponse :=
  match get_status fs.store account_name with
  | none => .error
      { statusCode := 404
        error_code := "ACCOUNT_NOT_FOUND"
        message := "Provisioning for CosmosDB account " ++ account_name
          ++ " not found" }
  | some r => .ok r

/-- The `callback` closure attached by
`AzureCosmosManager.delete_account_async` to the executor future. -/
def delete_account_callback (account_name : String) (settings : Settings)
    (t : TransportOutcome) (outcome : OpOutcome) (fs : FlowState) : FlowState :=
  match outcome with
  | .success =>
    let fs := recordUpdate fs account_name .completed
      (some "Deleting completed successfully")
    recordNotification fs
      (email_templates.send_deletion_success_email account_name settings t).1
  | .failure m =>
    let fs := recordUpdate fs account_name .error (some m)
    recordNotification fs
      (email_templates.send_deletion_failure_email account_name m settings t).1

/-- The synchronous part of `AzureCosmosManager.delete_account_async`:
raises `ValueError` when `account_exists` is false, otherwise submits
`begin_delete` to the executor, attaches the completion callback and
returns at accept time.  Its `except AzureError` branch is dead code for
the same reason as in `create_account_async`. -/
def delete_account_async (account_name : String) (g : ProviderGetBehavior) :
    Except String Unit :=
  if account_exists g then .ok ()
  else .error ("Account " ++ account_name ++ " does not exist.")

/-- Embeds `delete_cosmos_account` from `app/routers/cosmos_router.py`,
together with the completion callback scheduled on the existing-account
path.  On `ValueError` the router sends one deletion-failure email and
raises 404 ACCOUNT_NOT_FOUND; otherwise it sends a deletion-success
email IMMEDIATELY after the delete is accepted and answers 204 with no
body (`Except.ok ()`), and the callback later adds its own terminal
update and notification.  The router's `except AzureError` branch is
dead code. -/
def delete_cosmos_account (account_name : String) (g : ProviderGetBehavior)
    (outcome : OpOutcome) (settings : Settings) (t : TransportOutcome)
    (fs : FlowState) : Except HttpErrorBody Unit × FlowState :=
  match delete_account_async account_name g with
  | .error msg =>
    let fs := recordNotification fs
      (send_deletion_failure_email account_name msg settings t).1
    (.error { statusCode := 404, error_code := "ACCOUNT_NOT_FOUND", message := msg },
      fs)
  | .ok _ =>
    let fs := recordNotification fs
      (send_deletion_success_email account_name settings t).1
    let fs := recordOpCompleted fs account_name outcome
    (.ok (), delete_account_callback account_name settings t outcome fs)

/-- HTTP status code of a `DELETE /cosmos/accounts` response: the route
is declared with `status_code=204` and the handler returns `None`, so
the success response is 204 with an empty body. -/
def deleteStatusCode : Except HttpErrorBody Unit → Nat
  | .ok _ => 204
  | .error e => e.statusCode

/-! ### Trace observations -/

/-- Number of dispatched notifications of a given kind in a trace. -/
def notifCount (es : List Event) (k : NotificationKind) : Nat :=
  es.countP fun e =>
    match e with
    | .notification n => decide (n.kind = k)
    | _ => false

/-- Bodies of the dispatched notifications of a given kind. -/
def notifBodies (es : List Event) (k : NotificationKind) : List String :=
  es.filterMap fun e =>
    match e with
    | .notification n => if n.kind = k then some n.body else none
    | _ => none

/-- The ordered list of statuses written to the store for one
identifier. -/
def statusUpdatesFor (es : List Event) (account_name : String) :
    List CosmosAccountStatus :=
  es.filterMap fun e =>
    match e with
    | .statusUpdate a st _ => if a = account_name then some st else none
    | _ => none

/-- Index of the first store write of a given status for an
identifier. -/
def firstStatusIdx (es : List Event) (account_name : String)
    (st : CosmosAccountStatus) : Option Nat :=
  es.findIdx? fun e =>
    match e with
    | .statusUpdate a s _ => decide (a = account_name) && decide (s = st)
    | _ => false

/-- Index of the first notification of a given kind. -/
def firstNotifIdx (es : List Event) (k : NotificationKind) : Option Nat :=
  es.findIdx? fun e =>
    match e with
    | .notification n => decide (n.kind = k)
    | _ => false

/-- Index of the event marking provider-operation completion for an
identifier. -/
def opCompletedIdx (es : List Event) (account_name : String) : Option Nat :=
  es.findIdx? fun e =>
    match e with
    | .providerOpCompleted a _ => decide (a = account_name)
    | _ => false

/-- Whether `needle` starts `hay`. -/
def isPrefixList : List Char → List Char → Bool
  | [], _ => true
  | _ :: _, [] => false
  | a :: as, b :: bs => a == b && isPrefixList as bs

/-- Whether `needle` occurs inside `hay`. -/
def containsSub (hay needle : List Char) : Bool :=
  match hay with
  | [] => needle.isEmpty
  | _ :: tl => isPrefixList needle hay || containsSub tl needle

/-- Substring check on strings. -/
def containsText (hay needle : String) : Bool :=
  containsSub hay.toList needle.toList

/-! ### Concrete scenario inputs -/

/-- A concrete configuration for evaluating the flows. -/
def sampleSettings : Settings :=
  { AZURE_SUBSCRIPTION_ID := "00000000-0000-0000-0000-000000000000"
    AZURE_RESOURCE_GROUP := "demo-rg"
    GMAIL_ADDRESS := "user@example.com"
    GMAIL_PASSWORD := "pw" }

/-- The initial state: empty store, clock 0, no events. -/
def emptyFlow : FlowState :=
  { store := [], clock := 0, events := [] }

/-- A successful create flow for `my-cosmos-account`. -/
def createRunSuccess : PostResponse × FlowState :=
  create_cosmos_account "my-cosmos-account" "Central India" CosmosAPIType.sql
    sampleSettings TransportOutcome.delivered OpOutcome.success emptyFlow

/-- A successful delete flow for an account the provider knows. -/
def deleteRunExisting : Except HttpErrorBody Unit × FlowState :=
  delete_cosmos_account "doomed-account" ProviderGetBehavior.returnsAccount
    OpOutcome.success sampleSettings TransportOutcome.delivered emptyFlow

/-- A create request whose body fails model validation: `ab` is shorter
than `min_length=3` and does not match the pattern. -/
def invalidCreateRun : PostResponse × FlowState :=
  create_cosmos_account "ab" "Central India" CosmosAPIType.sql
    sampleSettings TransportOutcome.delivered OpOutcome.success emptyFlow

/-- One `StatusTracker.update_status` invocation (arguments plus the
`datetime.now()` value observed during the call). -/
structure UpdateCall where
  now : Nat
  account_name : String
  status : CosmosAccountStatus
  message : Option String

/-- Replay a sequence of `update_status` calls against a store; every
reachable `StatusTracker` store is `applyUpdates calls []` for the
sequence of calls issued so far, since `update_status` is the only
mutation of `_statues`. -/
def applyUpdates : List UpdateCall → StatusStore → StatusStore
  | [], store => store
  | c :: cs, store =>
      applyUpdates cs (update_status store c.now c.account_name c.status c.message)

end CosmosSpec

namespace CosmosSpec

/-! ### Helper lemmas -/

/-- Lemma: `notifCount` distributes over trace concatenation. -/
theorem notifCount_append (es₁ es₂ : List Event) (k : NotificationKind) :
    notifCount (es₁ ++ es₂) k = notifCount es₁ k + notifCount es₂ k :=
  List.countP_append _ _ _

/-- The notification composed by `send_deletion_failure_email` is a
deletion-failure notification whatever the transport does. -/
theorem send_deletion_failure_email_kind (a m : String) (s : Settings)
    (t : TransportOutcome) :
    (send_deletion_failure_email a m s t).1.kind = NotificationKind.deleteFailure := by
  cases t <;> rfl

/-- Looking up the key just written returns the record just written. -/
theorem get_status_update_self (store : StatusStore) (now : Nat) (name : String)
    (st : CosmosAccountStatus) (msg : Option String) :
    get_status (update_status store now name st msg) name =
      some { account_name := name, status := st, created_at := now,
             updated_at := now, message := msg } := by
  simp [get_status, update_status, List.find?]

/-- Every record reachable through `update_status` has equal
timestamps, since both fields are stamped from the same `now`. -/
theorem applyUpdates_timestamps (calls : List UpdateCall) :
    ∀ store : StatusStore,
      (∀ name r, get_status store name = some r → r.created_at = r.updated_at) →
      ∀ name r, get_status (applyUpdates calls store) name = some r →
        r.created_at = r.updated_at := by
  induction calls with
  | nil => intro store h name r hr; exact h name r hr
  | cons c cs ih =>
    intro store h name r hr
    refine ih _ ?_ name r hr
    intro name' r' hr'
    by_cases hname : c.account_name == name'
    · simp [get_status, update_status, List.find?, hname] at hr'
      subst hr'
      rfl
    · simp [get_status, update_status, List.find?, hname] at hr'
      exact h name' r' (by simpa [get_status] using hr')

/-! ### Claim C4 -/

/-- C4 counterexample: the claim says a subsequent `update` leaves
`created_at` unchanged, but `StatusTracker.update_status` restamps it.
A record created at time 1 and updated at time 5 ends with
`created_at = 5`, not the original 1. -/
theorem update_status_resets_created_at :
    (get_status (update_status (update_status [] 1 "acc" CosmosAccountStatus.queued none)
        5 "acc" CosmosAccountStatus.in_progress (some "next")) "acc").map
      (fun r => r.created_at) = some 5 ∧
    (get_status (update_status [] 1 "acc" CosmosAccountStatus.queued none) "acc").map
      (fun r => r.created_at) = some 1 ∧
    (5 : Nat) ≠ 1 := by
  refine ⟨rfl, rfl, by decide⟩

/-- C4 (amended): for every identifier - already present in the store or
not - `update_status` replaces the record with one whose `created_at`
AND `updated_at` are both stamped to `now()`, with the other fields set
to the supplied values; `created_at` is not preserved across updates. -/
theorem update_status_stamps_both_timestamps (store : StatusStore) (now : Nat)
    (name : String) (st : CosmosAccountStatus) (msg : Option String) :
    get_status (update_status store now name st msg) name =
      some { account_name := name, status := st, created_at := now,
             updated_at := now, message := msg } :=
  get_status_update_self store now name st msg

/-! ### Claim C7 -/

/-- C7 counterexample: when the provider `get` raises a genuine
communication failure (an `AzureError` that is not a 404),
`account_exists` still returns plain `false` instead of raising:
`get_account_async` catches every `AzureError` and returns `None`. -/
theorem account_exists_swallows_comm_failure :
    clientDatabaseAccountsGet ProviderGetBehavior.raisesCommunicationFailure =
      Except.error AzureErrorKind.communicationFailure ∧
    account_exists ProviderGetBehavior.raisesCommunicationFailure = false :=
  ⟨rfl, rfl⟩

/-- C7 (amended): `account_exists` never raises (it is total); it
returns `true` exactly when the provider `get` call succeeds, and
returns `false` whenever the call raises ANY `AzureError` - the 404
not-found case and genuine communication failures alike. -/
theorem account_exists_iff_provider_ok (b : ProviderGetBehavior) :
    (account_exists b = true ↔ clientDatabaseAccountsGet b = Except.ok ()) ∧
    (account_exists b = false ↔ ∃ e, clientDatabaseAccountsGet b = Except.error e) := by
  cases b <;> simp [account_exists, get_account_async, clientDatabaseAccountsGet]

/-! ### Claim C8 -/

/-- C8: when the provider does not know the account (`account_exists`
is false), `DELETE` answers 404 with `error_code=ACCOUNT_NOT_FOUND`,
dispatches exactly one deletion-failure notification and no
deletion-success notification. -/
theorem delete_missing_account_contract (account_name : String)
    (g : ProviderGetBehavior) (outcome : OpOutcome) (settings : Settings)
    (t : TransportOutcome) (fs : FlowState)
    (h : account_exists g = false) :
    (delete_cosmos_account account_name g outcome settings t fs).1 =
      Except.error { statusCode := 404, error_code := "ACCOUNT_NOT_FOUND",
                     message := "Account " ++ account_name ++ " does not exist." } ∧
    notifCount (delete_cosmos_account account_name g outcome settings t fs).2.events
        NotificationKind.deleteFailure
      = notifCount fs.events NotificationKind.deleteFailure + 1 ∧
    notifCount (delete_cosmos_account account_name g outcome settings t fs).2.events
        NotificationKind.deleteSuccess
      = notifCount fs.events NotificationKind.deleteSuccess := by
  have hkind := send_deletion_failure_email_kind account_name
    ("Account " ++ account_name ++ " does not exist.") settings t
  simp only [delete_cosmos_account, delete_account_async, h, Bool.false_eq_true,
    if_false, recordNotification]
  refine ⟨trivial, ?_, ?_⟩ <;>
    simp [notifCount, List.countP_append, List.countP_cons, hkind]

/-- C8 witness: the contract evaluated for a concrete missing
account. -/
theorem delete_missing_account_contract_witness :
    account_exists ProviderGetBehavior.raisesNotFound = false ∧
    ((delete_cosmos_account "ghost-account" ProviderGetBehavior.raisesNotFound
        OpOutcome.success sampleSettings TransportOutcome.delivered emptyFlow).1 =
      Except.error { statusCode := 404, error_code := "ACCOUNT_NOT_FOUND",
                     message := "Account " ++ "ghost-account" ++ " does not exist." } ∧
    notifCount (delete_cosmos_account "ghost-account" ProviderGetBehavior.raisesNotFound
        OpOutcome.success sampleSettings TransportOutcome.delivered emptyFlow).2.events
        NotificationKind.deleteFailure
      = notifCount emptyFlow.events NotificationKind.deleteFailure + 1 ∧
    notifCount (delete_cosmos_account "ghost-account" ProviderGetBehavior.raisesNotFound
        OpOutcome.success sampleSettings TransportOutcome.delivered emptyFlow).2.events
        NotificationKind.deleteSuccess
      = notifCount emptyFlow.events NotificationKind.deleteSuccess) :=
  ⟨rfl, delete_missing_account_contract "ghost-account"
    ProviderGetBehavior.raisesNotFound OpOutcome.success sampleSettings
    TransportOutcome.delivered emptyFlow rfl⟩

/-! ### Claim C9 -/

/-- A create flow is pointwise independent of the transport outcome. -/
theorem create_flow_transport_independent (x loc : String) (a : CosmosAPIType)
    (s : Settings) (o : OpOutcome) (t t' : TransportOutcome) (fs : FlowState) :
    create_cosmos_account x loc a s t o fs = create_cosmos_account x loc a s t' o fs := by
  cases o <;> cases t <;> cases t' <;> rfl

/-- A delete flow is pointwise independent of the transport outcome. -/
theorem delete_flow_transport_independent (x : String) (g : ProviderGetBehavior)
    (o : OpOutcome) (s : Settings) (t t' : TransportOutcome) (fs : FlowState) :
    delete_cosmos_account x g o s t fs = delete_cosmos_account x g o s t' fs := by
  cases g <;> cases o <;> cases t <;> cases t' <;> rfl

/-- C9: a transport failure inside any notification attempt is caught
and logged: the `GmailSender` context manager genuinely raises on a
connect failure, yet each of the eight notification functions returns
normally with the same composed notification and a log line; a
notification dispatch never touches the status store or the clock; and
both orchestrated flows produce the same response and the same store
whatever the transport does. -/
theorem notification_failures_contained :
    (∀ m, GmailSender_send (TransportOutcome.connectFailure m) = Except.error m) ∧
    (∀ a e s m, send_failure_notification a e s (TransportOutcome.connectFailure m) =
      ((send_failure_notification a e s TransportOutcome.delivered).1,
        ["Email notification failed: " ++ m])) ∧
    (∀ a k l n s m,
      send_success_notification a k l n s (TransportOutcome.connectFailure m) =
      ((send_success_notification a k l n s TransportOutcome.delivered).1,
        ["Failed to send success notification: " ++ m])) ∧
    (∀ a s m, send_deletion_success_email a s (TransportOutcome.connectFailure m) =
      ((send_deletion_success_email a s TransportOutcome.delivered).1,
        ["EMail error: " ++ m])) ∧
    (∀ a e s m, send_deletion_failure_email a e s (TransportOutcome.connectFailure m) =
      ((send_deletion_failure_email a e s TransportOutcome.delivered).1,
        ["EMail error: " ++ m])) ∧
    (∀ a k l n s m,
      email_templates.send_success_notification a k l n s (TransportOutcome.connectFailure m) =
      ((email_templates.send_success_notification a k l n s TransportOutcome.delivered).1,
        ["Email notification failed: " ++ m])) ∧
    (∀ a e s m,
      email_templates.send_failure_notification a e s (TransportOutcome.connectFailure m) =
      ((email_templates.send_failure_notification a e s TransportOutcome.delivered).1,
        ["Email notification failed: " ++ m])) ∧
    (∀ a s m,
      email_templates.send_deletion_success_email a s (TransportOutcome.connectFailure m) =
      ((email_templates.send_deletion_success_email a s TransportOutcome.delivered).1,
        ["Email notification failed: " ++ m])) ∧
    (∀ a e s m,
      email_templates.send_deletion_failure_email a e s (TransportOutcome.connectFailure m) =
      ((email_templates.send_deletion_failure_email a e s TransportOutcome.delivered).1,
        ["Email notification failed: " ++ m])) ∧
    (∀ fs n, (recordNotification fs n).store = fs.store ∧
      (recordNotification fs n).clock = fs.clock) ∧
    (∀ x loc a s o t t' fs,
      (create_cosmos_account x loc a s t o fs).1 =
        (create_cosmos_account x loc a s t' o fs).1 ∧
      (create_cosmos_account x loc a s t o fs).2.store =
        (create_cosmos_account x loc a s t' o fs).2.store) ∧
    (∀ x g o s t t' fs,
      (delete_cosmos_account x g o s t fs).1 =
        (delete_cosmos_account x g o s t' fs).1 ∧
      (delete_cosmos_account x g o s t fs).2.store =
        (delete_cosmos_account x g o s t' fs).2.store) :=
  ⟨fun _ => rfl,
   fun _ _ _ _ => rfl,
   fun _ _ _ _ _ _ => rfl,
   fun _ _ _ => rfl,
   fun _ _ _ _ => rfl,
   fun _ _ _ _ _ _ => rfl,
   fun _ _ _ _ => rfl,
   fun _ _ _ => rfl,
   fun _ _ _ _ => rfl,
   fun _ _ => ⟨rfl, rfl⟩,
   fun x loc a s o t t' fs => by
     rw [create_flow_transport_independent x loc a s o t t' fs]; exact ⟨rfl, rfl⟩,
   fun x g o s t t' fs => by
     rw [delete_flow_transport_independent x g o s t t' fs]; exact ⟨rfl, rfl⟩⟩

/-! ### Claim C10 -/

/-- C10: in every record reachable in the `StatusTracker` store (any
sequence of `update_status` calls starting from the empty store),
`created_at` and `updated_at` are exactly equal - both are stamped from
the same `now()` on every insert or overwrite - so no reachable record
has `updated_at` later than `created_at`; `_create_status_response`
stamps its two timestamp fields identically as well. -/
theorem status_records_created_eq_updated :
    (∀ (calls : List UpdateCall) (name : String) (r : CosmosAccountStatusResponse),
        get_status (applyUpdates calls []) name = some r →
        r.created_at = r.updated_at ∧ ¬ r.created_at < r.updated_at) ∧
    (∀ (name : String) (st : CosmosAccountStatus) (msg : Option String) (now : Nat),
        (create_status_response name st msg now).created_at =
          (create_status_response name st msg now).updated_at) := by
  constructor
  · intro calls name r hr
    have heq := applyUpdates_timestamps calls []
      (by intro n r' h'; simp [get_status] at h') name r hr
    exact ⟨heq, by omega⟩
  · intro name st msg now
    rfl

/-- C10 witness: the invariant evaluated on a store reached by one
concrete update. -/
theorem status_records_created_eq_updated_witness :
    get_status (applyUpdates [⟨7, "w-account", CosmosAccountStatus.queued, none⟩] [])
        "w-account" =
      some { account_name := "w-account", status := CosmosAccountStatus.queued,
             created_at := 7, updated_at := 7, message := none } ∧
    (({ account_name := "w-account", status := CosmosAccountStatus.queued,
        created_at := 7, updated_at := 7, message := none } :
        CosmosAccountStatusResponse).created_at =
      ({ account_name := "w-account", status := CosmosAccountStatus.queued,
         created_at := 7, updated_at := 7, message := none } :
         CosmosAccountStatusResponse).updated_at ∧
     ¬ ({ account_name := "w-account", status := CosmosAccountStatus.queued,
          created_at := 7, updated_at := 7, message := none } :
          CosmosAccountStatusResponse).created_at <
       ({ account_name := "w-account", status := CosmosAccountStatus.queued,
          created_at := 7, updated_at := 7, message := none } :
          CosmosAccountStatusResponse).updated_at) :=
  ⟨rfl, status_records_created_eq_updated.1
    [⟨7, "w-account", CosmosAccountStatus.queued, none⟩] "w-account"
    { account_name := "w-account", status := CosmosAccountStatus.queued,
      created_at := 7, updated_at := 7, message := none } rfl⟩

/-! ### Claim C1 -/

/-- C1: in the successful create flow for `my-cosmos-account` a later
`GET` does return status COMPLETED and every success-notification body
contains the identifier, but TWO success notifications are dispatched,
not exactly one: `execute_provisioning` sends one as soon as
`create_account_async` returns (at accept time) and the completion
callback attached by the manager sends a second one. -/
theorem create_success_flow_two_notifications :
    get_provisioning_status createRunSuccess.2 "my-cosmos-account" =
      Except.ok { account_name := "my-cosmos-account",
                  status := CosmosAccountStatus.completed, created_at := 3,
                  updated_at := 3,
                  message := some "Provisioning completed successfully" } ∧
    notifCount createRunSuccess.2.events NotificationKind.createSuccess = 2 ∧
    ¬ notifCount createRunSuccess.2.events NotificationKind.createSuccess = 1 ∧
    (notifBodies createRunSuccess.2.events NotificationKind.createSuccess).all
      (fun b => containsText b "my-cosmos-account") = true :=
  ⟨rfl, rfl, by decide, by decide⟩

/-! ### Claim C2 -/

/-- C2: in the successful create flow the per-identifier store writes do
occur in the order QUEUED, IN_PROGRESS, then terminal writes, but the
first COMPLETED write (trace index 2) happens BEFORE the provider
long-running operation finishes (trace index 4): `create_account_async`
returns at accept time, so `execute_provisioning` stamps COMPLETED while
the operation is still pending; the completion callback then writes
COMPLETED a second time. -/
theorem completed_written_before_op_finishes :
    statusUpdatesFor createRunSuccess.2.events "my-cosmos-account" =
      [CosmosAccountStatus.queued, CosmosAccountStatus.in_progress,
       CosmosAccountStatus.completed, CosmosAccountStatus.completed] ∧
    firstStatusIdx createRunSuccess.2.events "my-cosmos-account"
      CosmosAccountStatus.completed = some 2 ∧
    opCompletedIdx createRunSuccess.2.events "my-cosmos-account" = some 4 ∧
    (2 : Nat) < 4 :=
  ⟨rfl, rfl, rfl, by decide⟩

/-! ### Claim C3 -/

/-- C3: deleting an account the provider knows does answer 204 with an
empty body, but TWO deletion-success notifications are dispatched, not
exactly one, and the first (trace index 0) is sent BEFORE the provider
delete operation completes (trace index 1): the router emails right
after `delete_account_async` returns at accept time, and the completion
callback emails again. -/
theorem delete_success_flow_two_notifications :
    deleteRunExisting.1 = Except.ok () ∧
    deleteStatusCode deleteRunExisting.1 = 204 ∧
    notifCount deleteRunExisting.2.events NotificationKind.deleteSuccess = 2 ∧
    ¬ notifCount deleteRunExisting.2.events NotificationKind.deleteSuccess = 1 ∧
    firstNotifIdx deleteRunExisting.2.events NotificationKind.deleteSuccess = some 0 ∧
    opCompletedIdx deleteRunExisting.2.events "doomed-account" = some 1 ∧
    (0 : Nat) < 1 :=
  ⟨rfl, rfl, rfl, by decide, rfl, rfl, by decide⟩

/-! ### Claim C5 -/

/-- C5: a request body failing input validation is rejected by the
framework with 422 Unprocessable Entity (FastAPI's default for pydantic
model validation failures), not 400, the route handler never runs, and
the store records nothing at all for the identifier - no ERROR record,
no events.  The handler's `except ValueError` branch producing 400 with
`error_code=VALIDATION_ERROR` is dead code. -/
theorem invalid_body_rejected_eval :
    validAccountName "ab" = false ∧
    invalidCreateRun.1 = PostResponse.validationRejected ∧
    invalidCreateRun.1.statusCode = 422 ∧
    ¬ invalidCreateRun.1.statusCode = 400 ∧
    get_status invalidCreateRun.2.store "ab" = none ∧
    invalidCreateRun.2.events = [] :=
  ⟨by decide, rfl, rfl, by decide, rfl, rfl⟩

/-! ### Claim C6 -/

/-- A character in `[a-z]` is in `[a-z0-9-]`. -/
theorem isLowerAlpha_isNameChar {c : Char} (h : isLowerAlpha c = true) :
    isNameChar c = true := by
  simp [isNameChar, h]

/-- A character in `[a-z0-9]` is in `[a-z0-9-]`. -/
theorem isNameTailChar_isNameChar {c : Char} (h : isNameTailChar c = true) :
    isNameChar c = true := by
  simp only [isNameTailChar, Bool.or_eq_true] at h
  rcases h with h | h <;> simp [isNameChar, h]

/-- A character in `[a-z0-9]` is not the hyphen. -/
theorem isNameTailChar_ne_hyphen {c : Char} (h : isNameTailChar c = true) :
    c ≠ '-' := by
  intro hc
  rw [hc] at h
  exact absurd h (by decide)

/-- A character in `[a-z0-9-]` other than the hyphen is in
`[a-z0-9]`. -/
theorem isNameChar_tail_of_ne_hyphen {c : Char} (h : isNameChar c = true)
    (hne : c ≠ '-') : isNameTailChar c = true := by
  have hbe : (c == '-') = false := by simpa using hne
  simp only [isNameChar, hbe, Bool.or_false] at h
  simpa [isNameTailChar] using h

/-- Soundness of the account-name pattern: a matching string has at
least 3 characters, all in `[a-z0-9-]`, starts with `[a-z]` and ends
with `[a-z0-9]`. -/
theorem matchesAccountPattern_sound {cs : List Char}
    (h : matchesAccountPattern cs = true) :
    3 ≤ cs.length ∧ (∀ c ∈ cs, isNameChar c = true) ∧
    (∀ c, cs.head? = some c → isLowerAlpha c = true) ∧
    (∀ c, cs.getLast? = some c → isNameTailChar c = true) := by
  rw [matchesAccountPattern, List.any_eq_true] at h
  obtain ⟨i, hi, hcond⟩ := h
  rw [List.mem_range] at hi
  simp only [Bool.and_eq_true, decide_eq_true_eq] at hcond
  obtain ⟨⟨⟨⟨⟨h1, htake⟩, h2⟩, h43⟩, hmid⟩, hlastm⟩ := hcond
  have hdropne : cs.drop i ≠ [] := by
    intro hnil
    rw [hnil] at h2
    simp at h2
  have hlast? : (cs.drop i).getLast? = some ((cs.drop i).getLast hdropne) :=
    List.getLast?_eq_getLast_of_ne_nil hdropne
  rw [hlast?] at hlastm
  have hld : (cs.drop i).length = cs.length - i := List.length_drop i cs
  have hlen : 3 ≤ cs.length := by omega
  have hgl : cs.getLast? = (cs.drop i).getLast? := by
    conv_lhs => rw [← List.take_append_drop i cs]
    exact List.getLast?_append_of_ne_nil _ hdropne
  refine ⟨hlen, ?_, ?_, ?_⟩
  · intro c hc
    conv at hc => rw [← List.take_append_drop i cs]
    rcases List.mem_append.1 hc with hcl | hcr
    · exact isLowerAlpha_isNameChar (List.all_eq_true.1 htake c hcl)
    · rw [← List.dropLast_append_getLast hdropne] at hcr
      rcases List.mem_append.1 hcr with hcd | hcl2
      · exact List.all_eq_true.1 hmid c hcd
      · have hceq : c = (cs.drop i).getLast hdropne := by simpa using hcl2
        rw [hceq]
        exact isNameTailChar_isNameChar hlastm
  · intro c hc
    cases cs with
    | nil => simp at hc
    | cons a tl =>
      have hca : a = c := by simpa using hc
      obtain ⟨k, rfl⟩ : ∃ k, i = k + 1 := ⟨i - 1, by omega⟩
      rw [List.take_succ_cons] at htake
      rw [← hca]
      simp only [List.all_cons, Bool.and_eq_true] at htake
      exact htake.1
  · intro c hc
    rw [hgl, hlast?] at hc
    have : (cs.drop i).getLast hdropne = c := by simpa using hc
    rw [← this]
    exact hlastm

/-- Completeness of the account-name pattern: a string of 3 to 44
characters from `[a-z0-9-]` starting with `[a-z]` and ending with
`[a-z0-9]` matches (witness: a one-character letter prefix). -/
theorem matchesAccountPattern_complete {cs : List Char}
    (h3 : 3 ≤ cs.length) (h44 : cs.length ≤ 44)
    (hall : ∀ c ∈ cs, isNameChar c = true)
    (hhead : ∀ c, cs.head? = some c → isLowerAlpha c = true)
    (hlast : ∀ c, cs.getLast? = some c → isNameTailChar c = true) :
    matchesAccountPattern cs = true := by
  cases cs with
  | nil => simp at h3
  | cons a tl =>
    have hlen3 : 3 ≤ tl.length + 1 := by simpa using h3
    have hlen44 : tl.length + 1 ≤ 44 := by simpa using h44
    have htlne : tl ≠ [] := by
      intro hnil
      rw [hnil] at hlen3
      simp at hlen3
    have ha : isLowerAlpha a = true := hhead a rfl
    have hgl : (a :: tl).getLast? = tl.getLast? := by
      have hsplit : a :: tl = [a] ++ tl := rfl
      rw [hsplit]
      exact List.getLast?_append_of_ne_nil _ htlne
    rw [matchesAccountPattern, List.any_eq_true]
    refine ⟨1, ?_, ?_⟩
    · rw [List.mem_range, List.length_cons]
      omega
    · simp only [Bool.and_eq_true, decide_eq_true_eq]
      refine ⟨⟨⟨⟨⟨le_refl 1, ?_⟩, ?_⟩, ?_⟩, ?_⟩, ?_⟩
      · simp [List.take_succ_cons, ha]
      · simpa using by omega
      · simpa using by omega
      · rw [List.all_eq_true]
        simp only [List.drop_succ_cons, List.drop_zero]
        intro c hc
        exact hall c (List.mem_cons_of_mem a (List.mem_of_mem_dropLast hc))
      · simp only [List.drop_succ_cons, List.drop_zero]
        rw [List.getLast?_eq_getLast_of_ne_nil htlne]
        apply hlast
        rw [hgl]
        exact List.getLast?_eq_getLast_of_ne_nil htlne

/-- C6 counterexample: `Pune` is a non-empty region and `abc` satisfies
the claim's identifier rule, yet the request is rejected: the code
requires `min_length=5` on `location`. -/
theorem nonempty_region_rejected :
    ("Pune" : String) ≠ "" ∧ validAccountName "abc" = true ∧
    validCreateRequest "abc" "Pune" = false :=
  ⟨by decide, by decide, by decide⟩

/-- C6 (amended): a request passes input validation exactly when the
identifier is 3 to 44 characters of lowercase letters, digits and
hyphens, starting with a letter and not ending with a hyphen, AND the
region has at least 5 characters; a non-empty region of fewer than 5
characters is rejected. -/
theorem validCreateRequest_characterization (name loc : String) :
    validCreateRequest name loc = true ↔
      (specValidAccountName name ∧ 5 ≤ loc.toList.length) := by
  unfold validCreateRequest validAccountName validLocation specValidAccountName
  simp only [Bool.and_eq_true, decide_eq_true_eq]
  constructor
  · rintro ⟨⟨⟨h3, h44⟩, hp⟩, hloc⟩
    obtain ⟨_, hall, hhead, hlast⟩ := matchesAccountPattern_sound hp
    exact ⟨⟨h3, h44, hall, hhead,
      fun c hc => isNameTailChar_ne_hyphen (hlast c hc)⟩, hloc⟩
  · rintro ⟨⟨h3, h44, hall, hhead, hlast⟩, hloc⟩
    refine ⟨⟨⟨h3, h44⟩, ?_⟩, hloc⟩
    refine matchesAccountPattern_complete h3 h44 hall hhead ?_
    intro c hc
    have hcmem : c ∈ name.toList := by
      obtain ⟨hne, hceq⟩ := List.mem_getLast?_eq_getLast (Option.mem_def.2 hc)
      rw [hceq]
      exact List.getLast_mem hne
    exact isNameChar_tail_of_ne_hyphen (hall c hcmem) (hlast c hc)

end CosmosSpec
